import Mathlib

/-
Verification of the GitlabCleaner job-cleanup pipeline.

Shallow embedding of the source files:
  src/main.rs          (the clean_jobs pipeline and main)
  src/actors/git.rs    (the Git actor: GetProject, GetJobs, EraseJob handlers)
  src/actors/displ.rs  (the Displ actor: DisplayMessage, IncreaseProgress handlers)

HTTP transports are modelled as explicit inputs: a function from the request
parameters that actually reach the wire to the transport outcome
(Except transport-error response). Timestamps are modelled as Int. The actor
mailbox plumbing is elided; each handler is embedded as a pure function of its
message and the transport outcome.
-/

namespace GitlabCleaner

/-- Job model from src/actors/git.rs: id, creation date, optional erase date. -/
structure Job where
  id : Nat
  created_at : Int
  erased_at : Option Int
deriving DecidableEq, Repr

/-- Project model from src/actors/git.rs: id and name. -/
structure Project where
  id : Nat
  name : String
deriving DecidableEq, Repr

/-- The std io ErrorKind values that the Git actor handlers construct in
src/actors/git.rs: NotFound (zero project matches), Unsupported (multiple
project matches, the spec calls this failure Ambiguous), Other (transport
failures). -/
inductive ErrorKind
  | notFound
  | unsupported
  | other
deriving DecidableEq, Repr

/-- An std io Error as the handlers build them: a kind and a message. -/
structure IOError where
  kind : ErrorKind
  msg : String
deriving DecidableEq, Repr

/-- Handler for the GetProject message (src/actors/git.rs lines 54-83).
The input is the transport outcome of the project-search request: a transport
error, or the parsed list of matching projects. Zero matches fail with
NotFound, exactly one match returns that project id, more than one match
fails with Unsupported, and a failed request fails with Other. -/
def handleGetProject (res : Except String (List Project)) : Except IOError Nat :=
  match res with
  | .error _ => .error ⟨.other, "Search request failed."⟩
  | .ok projects =>
    match projects with
    | [] => .error ⟨.notFound, "No project found that matches the researched term."⟩
    | [p] => .ok p.id
    | _ :: _ :: _ =>
      .error ⟨.unsupported, "Multiple projects found that matches the researched term."⟩

/-- The visible-ASCII test of the http crate: a header value converts to a
string only when every byte is in 32..126 or is a tab. -/
def is_visible_ascii (b : Nat) : Bool := (32 ≤ b && b < 127) || b == 9

/-- HeaderValue to_str as used on the x-next-page header: succeeds exactly
when every byte is visible ASCII, yielding the corresponding string. -/
def headerToStr (bytes : List Nat) : Option String :=
  if bytes.all is_visible_ascii then some (String.mk (bytes.map Char.ofNat)) else none

/-- Rust u64 from_str on a digit tail: at least one character, all decimal
digits, and the value must fit in 64 bits. -/
def parseU64Digits (cs : List Char) : Option Nat :=
  match cs with
  | [] => none
  | _ =>
    if cs.all Char.isDigit then
      let v := cs.foldl (fun acc c => acc * 10 + (c.toNat - 48)) 0
      if v < 2 ^ 64 then some v else none
    else none

/-- Rust u64 from_str: an optional leading plus sign followed by digits. -/
def parseU64 (s : String) : Option Nat :=
  match s.data with
  | [] => none
  | c :: rest => if c = '+' then parseU64Digits rest else parseU64Digits (c :: rest)

/-- The next-page cursor computation of the GetJobs handler (src/actors/git.rs
lines 125-128): read the x-next-page header, convert it to a string, parse it
as u64; every failure along the way collapses to none. -/
def nextPageOfHeader (h : Option (List Nat)) : Option Nat :=
  (h.bind headerToStr).bind parseU64

/-- The part of an HTTP response to the job-listing request that the GetJobs
handler inspects: the raw bytes of the x-next-page header when present, and
the parsed job list of the body. -/
structure HttpJobsResponse where
  next_page_header : Option (List Nat)
  jobs : List Job
deriving DecidableEq, Repr

/-- GetJobsResponse from src/actors/git.rs: the jobs found and the next page. -/
structure GetJobsResponse where
  jobs : List Job
  next_page : Option Nat
deriving DecidableEq, Repr

/-- Handler for the GetJobs message (src/actors/git.rs lines 113-138). The
input is the transport outcome of the listing request. On success the jobs
are returned together with the cursor decoded from the x-next-page header;
a transport failure becomes an Other error. The older_than field of the
message never reaches the request (the query carries only per_page and page),
so the handler is a function of the page response alone. -/
def handleGetJobs (res : Except String HttpJobsResponse) : Except IOError GetJobsResponse :=
  match res with
  | .error err => .error ⟨.other, err⟩
  | .ok r => .ok ⟨r.jobs, nextPageOfHeader r.next_page_header⟩

/-- The part of an HTTP response to the erase request that the EraseJob
handler could inspect: the status code. The handler ignores it. -/
structure HttpResponse where
  status : Nat
deriving DecidableEq, Repr

/-- Handler for the EraseJob message (src/actors/git.rs lines 160-176): any
received response is success, whatever its status; only a transport-level
failure of the request becomes an (Other) error. -/
def handleEraseJob (res : Except String HttpResponse) : Except IOError Unit :=
  match res with
  | .ok _ => .ok ()
  | .error err => .error ⟨.other, err⟩

/-- An observable event of one pipeline run: a page fetch or an erase request
for one job id. -/
inductive PipelineEvent
  | fetch (page : Nat)
  | erase (jobId : Nat)
deriving DecidableEq, Repr

/-- The pagination loop of clean_jobs (src/main.rs lines 86-104): starting
from an optional page number, fetch that page, append its jobs, and continue
with the next_page cursor of the response until the cursor is none. The store
argument abstracts one successful GetJobs exchange for the resolved project:
page number to (jobs of that page, decoded next-page cursor). The fuel
argument bounds the recursion; a run whose cursor chain is longer than the
fuel is cut short, which only ever under-approximates the diverging Rust
loop. Returns the accumulated jobs and the list of pages requested, in
order. -/
def fetchLoop (store : Nat → List Job × Option Nat) :
    Nat → Option Nat → List Job × List Nat
  | _, none => ([], [])
  | 0, some _ => ([], [])
  | fuel + 1, some page =>
    ((store page).1 ++ (fetchLoop store fuel (store page).2).1,
      page :: (fetchLoop store fuel (store page).2).2)

/-- One erase attempt of the erase closure in clean_jobs (src/main.rs lines
117-128): ask EraseJob; a handler error is replaced by the message
"Could not erase the job {id}" and the early return of the question-mark
operator skips the IncreaseProgress message, while a success is followed by
exactly one IncreaseProgress message. Returns the outcome recorded in the
batch result and the number of IncreaseProgress messages sent (0 or 1). The
eraseTransport argument abstracts the erase request of one job id. -/
def eraseJobAttempt (eraseTransport : Nat → Except String HttpResponse)
    (j : Job) : Except String Unit × Nat :=
  match handleEraseJob (eraseTransport j.id) with
  | .ok _ => (.ok (), 1)
  | .error _ => (.error ("Could not erase the job " ++ toString j.id), 0)

/-- The observable outcome of one clean_jobs run. -/
structure CleanRun where
  /-- Page fetches and erase requests, in program order: the fetch loop runs
  to completion, then every accumulated job is dispatched for erasure. -/
  trace : List PipelineEvent
  /-- The jobs accumulated from all fetched pages (full_jobs in the source). -/
  full_jobs : List Job
  /-- The batch result: one outcome per dispatched job, collected by join_all. -/
  results : List (Except String Unit)
  /-- How many IncreaseProgress messages reached the progress bar. -/
  progress : Nat
deriving Repr

/-- The clean_jobs pipeline (src/main.rs lines 81-139): paginate from page 1
accumulating full_jobs, then issue an erase request for every accumulated
job and collect the outcomes. The expiration parameter mirrors the
expiration_date argument of the source: it is placed into each GetJobs
message but never used to filter, so it does not influence the run. -/
def clean_jobs (store : Nat → List Job × Option Nat)
    (eraseTransport : Nat → Except String HttpResponse)
    (expiration : Int) (fuel : Nat) : CleanRun :=
  { trace := (fetchLoop store fuel (some 1)).2.map PipelineEvent.fetch
      ++ (fetchLoop store fuel (some 1)).1.map (fun j => PipelineEvent.erase j.id)
  , full_jobs := (fetchLoop store fuel (some 1)).1
  , results := (fetchLoop store fuel (some 1)).1.map
      (fun j => (eraseJobAttempt eraseTransport j).1)
  , progress := ((fetchLoop store fuel (some 1)).1.map
      (fun j => (eraseJobAttempt eraseTransport j).2)).sum }

/-- The main function after CLI parsing (src/main.rs lines 50-79): resolve
the project name, and on any resolution error stop the run with a panic
(modelled as none) before any listing or erase call; on success run
clean_jobs for the Jobs target. -/
def mainRun (searchRes : Except String (List Project))
    (store : Nat → List Job × Option Nat)
    (eraseTransport : Nat → Except String HttpResponse)
    (expiration : Int) (fuel : Nat) : Option CleanRun :=
  match handleGetProject searchRes with
  | .error _ => none
  | .ok _pid => some (clean_jobs store eraseTransport expiration fuel)

/-- Modelled from the spec: the eligible-for-erasure set, the jobs whose
created_at is strictly before the cutoff (spec sections 4.3 step 3 and 8).
No corresponding filter exists anywhere in the source; this definition is
the spec side of claim C1 and exists to state the divergence. -/
def eligibleJobs (jobs : List Job) (cutoff : Int) : List Job :=
  jobs.filter (fun j => decide (j.created_at < cutoff))

/-- The progress-bar state the Displ actor tracks (src/actors/displ.rs),
abstracting the indicatif ProgressBar to its length, position and message;
the spinner style is a constant and is elided. -/
structure DisplProgressBar where
  length : Nat
  pos : Nat
  message : String
deriving DecidableEq, Repr

/-- The Displ actor state: an optional progress bar. -/
structure Displ where
  progress_bar : Option DisplProgressBar
deriving DecidableEq, Repr

/-- Terminal output events of the Displ actor: clearing the in-progress bar,
or printing a standalone line. -/
inductive OutEv
  | clearBar
  | line (msg : String)
deriving DecidableEq, Repr

/-- Handler for the DisplayMessage message (src/actors/displ.rs lines 51-60):
when a bar is in progress, finish and clear it and drop it from the state;
then print the message as its own line. Returns the new state and the
emitted output. -/
def handleDisplayMessage (st : Displ) (msg : String) : Displ × List OutEv :=
  match st.progress_bar with
  | some _ => (⟨none⟩, [OutEv.clearBar, OutEv.line msg])
  | none => (⟨none⟩, [OutEv.line msg])

/-- Handler for the IncreaseProgress message (src/actors/displ.rs lines
108-115): when no bar is active nothing happens; otherwise the bar message
is replaced and the position is incremented by one. -/
def handleIncreaseProgress (st : Displ) (msg : String) : Displ :=
  match st.progress_bar with
  | none => st
  | some pb => ⟨some ⟨pb.length, pb.pos + 1, msg⟩⟩

/-- A one-page store used as concrete input: page 1 holds a single job with
id 7 created at time 5, and carries no next-page cursor. -/
def store1 : Nat → List Job × Option Nat :=
  fun p => if p = 1 then ([⟨7, 5, none⟩], none) else ([], none)

/-- An erase transport where every request gets a response. -/
def trOk : Nat → Except String HttpResponse := fun _ => .ok ⟨204⟩

/-- An erase transport where every request fails at the transport level. -/
def trFail : Nat → Except String HttpResponse := fun _ => .error "network unreachable"

/-- A dummy job with the given id. -/
def mkJob (i : Nat) : Job := ⟨i, 0, none⟩

/-- The three-page store of the pagination scenario: pages 1, 2, 3 carry 50,
50 and 7 jobs and cursors 2, 3 and none. -/
def store3 : Nat → List Job × Option Nat
  | 1 => ((List.range 50).map mkJob, some 2)
  | 2 => ((List.range 50).map (fun i => mkJob (50 + i)), some 3)
  | 3 => ((List.range 7).map (fun i => mkJob (100 + i)), none)
  | _ => ([], none)

/-- Whether a batch-result entry records a success. -/
def outcomeOk : Except String Unit → Bool
  | .ok _ => true
  | .error _ => false

/-- The accumulated jobs of a fetch loop are the concatenation, in fetch
order, of the job lists of the pages it requested. -/
theorem fetchLoop_fst_eq_join (store : Nat → List Job × Option Nat) :
    ∀ (fuel : Nat) (start : Option Nat),
      (fetchLoop store fuel start).1
        = (((fetchLoop store fuel start).2).map (fun p => (store p).1)).flatten := by
  intro fuel
  induction fuel with
  | zero => intro start; cases start <;> simp [fetchLoop]
  | succ n ih =>
    intro start
    cases start with
    | none => simp [fetchLoop]
    | some page => simp [fetchLoop, ih]

/-- One erase attempt sends one progress increment exactly when its recorded
outcome is a success. -/
theorem eraseJobAttempt_snd (tr : Nat → Except String HttpResponse) (j : Job) :
    (eraseJobAttempt tr j).2
      = if outcomeOk (eraseJobAttempt tr j).1 = true then 1 else 0 := by
  cases h : tr j.id <;> simp [eraseJobAttempt, handleEraseJob, h, outcomeOk]

/-- The progress increments sent during the erase phase count exactly the
successful attempts. -/
theorem attempts_progress_eq_ok_count (tr : Nat → Except String HttpResponse) :
    ∀ jobs : List Job,
      (jobs.map (fun j => (eraseJobAttempt tr j).2)).sum
        = (jobs.map (fun j => (eraseJobAttempt tr j).1)).countP outcomeOk := by
  intro jobs
  induction jobs with
  | nil => simp
  | cons j js ih =>
    simp only [List.map_cons, List.sum_cons, List.countP_cons, ← ih,
      eraseJobAttempt_snd]
    omega

/-- Claim C1: the spec requires the erase phase to target exactly the jobs
created strictly before the cutoff, but the pipeline applies no cutoff
filter: with a store holding a single job created at time 5 and a cutoff of
0, the spec-side eligible set is empty while the run still issues an erase
request for that job. -/
theorem C1_cutoff_ignored :
    eligibleJobs (clean_jobs store1 trOk 0 5).full_jobs 0 = []
    ∧ (clean_jobs store1 trOk 0 5).trace
        = [PipelineEvent.fetch 1, PipelineEvent.erase 7] := by
  constructor <;> rfl

/-- Claim C2, counterexample: with one fetched job whose erase attempt fails
at the transport level, the progress counter ends at 0 while the batch
length is 1, so the counter does not equal the batch length when attempts
fail. -/
theorem C2_counterexample :
    ¬ ((clean_jobs store1 trFail 0 5).progress
        = (clean_jobs store1 trFail 0 5).full_jobs.length) := by
  decide

/-- Claim C2, amended: the progress counter is incremented exactly once per
successful erase attempt and never for a failed one, so after the erase
phase it equals the number of successful outcomes in the batch result, and
it never exceeds the batch length. -/
theorem C2_progress_counts_successes :
    ∀ (store : Nat → List Job × Option Nat)
      (tr : Nat → Except String HttpResponse) (e : Int) (fuel : Nat),
      (clean_jobs store tr e fuel).progress
          = ((clean_jobs store tr e fuel).results).countP outcomeOk
      ∧ (clean_jobs store tr e fuel).progress
          ≤ (clean_jobs store tr e fuel).full_jobs.length := by
  intro store tr e fuel
  have h := attempts_progress_eq_ok_count tr (fetchLoop store fuel (some 1)).1
  constructor
  · simpa [clean_jobs] using h
  · have hle : ((fetchLoop store fuel (some 1)).1.map
        (fun j => (eraseJobAttempt tr j).1)).countP outcomeOk
        ≤ (fetchLoop store fuel (some 1)).1.length := by
      calc ((fetchLoop store fuel (some 1)).1.map
            (fun j => (eraseJobAttempt tr j).1)).countP outcomeOk
          ≤ ((fetchLoop store fuel (some 1)).1.map
            (fun j => (eraseJobAttempt tr j).1)).length := List.countP_le_length _
        _ = (fetchLoop store fuel (some 1)).1.length := by simp
    simpa [clean_jobs, h] using hle

/-- Claim C9: the EraseJob handler returns success for every received
response whatever its status code, 4xx and 5xx included, and returns an
error exactly for transport-level failures; consequently a run whose erase
requests are all answered, even with status 500, records only successes in
the batch result. -/
theorem C9_erase_ignores_status :
    (∀ status : Nat, handleEraseJob (.ok ⟨status⟩) = .ok ())
    ∧ (∀ err : String, handleEraseJob (.error err) = .error ⟨.other, err⟩)
    ∧ (∀ (store : Nat → List Job × Option Nat) (e : Int) (fuel status : Nat),
        ((clean_jobs store (fun _ => .ok ⟨status⟩) e fuel).results).all
          outcomeOk = true) := by
  refine ⟨fun _ => rfl, fun _ => rfl, ?_⟩
  intro store e fuel status
  simp [clean_jobs, List.all_eq_true, eraseJobAttempt, handleEraseJob, outcomeOk]

/-- Claim C10: the next-page cursor decoded by the GetJobs handler is none
whenever the x-next-page header is absent, whenever its bytes do not convert
to a string, and whenever the string does not parse as an unsigned 64-bit
integer; no error is raised in any of these cases, and a page whose decoded
cursor is none is the last page the pagination loop requests. -/
theorem C10_next_page_lenient :
    (∀ jobs, handleGetJobs (.ok ⟨none, jobs⟩) = .ok ⟨jobs, none⟩)
    ∧ (∀ jobs bytes, headerToStr bytes = none →
        handleGetJobs (.ok ⟨some bytes, jobs⟩) = .ok ⟨jobs, none⟩)
    ∧ (∀ jobs bytes s, headerToStr bytes = some s → parseU64 s = none →
        handleGetJobs (.ok ⟨some bytes, jobs⟩) = .ok ⟨jobs, none⟩)
    ∧ (∀ (store : Nat → List Job × Option Nat) (fuel page : Nat)
        (jobs : List Job), store page = (jobs, none) →
        fetchLoop store (fuel + 1) (some page) = (jobs, [page])) := by
  refine ⟨fun _ => rfl, ?_, ?_, ?_⟩
  · intro jobs bytes h
    simp [handleGetJobs, nextPageOfHeader, h]
  · intro jobs bytes s h hp
    simp [handleGetJobs, nextPageOfHeader, h, hp]
  · intro store fuel page jobs h
    simp [fetchLoop, h]

/-- Claim C10, witness: a header of one non-ASCII byte yields no cursor, the
header "ab" converts to a string but does not parse and yields no cursor,
and the one-page store terminates pagination after page 1. -/
theorem C10_witness :
    handleGetJobs (.ok ⟨some [200], []⟩) = .ok ⟨[], none⟩
    ∧ handleGetJobs (.ok ⟨some [97, 98], []⟩) = .ok ⟨[], none⟩
    ∧ fetchLoop store1 5 (some 1) = ([⟨7, 5, none⟩], [1]) :=
  ⟨C10_next_page_lenient.2.1 [] [200] rfl,
   C10_next_page_lenient.2.2.1 [] [97, 98] "ab" rfl rfl,
   C10_next_page_lenient.2.2.2 store1 4 1 [⟨7, 5, none⟩] rfl⟩

/-- Claim C3: project resolution succeeds with the project id exactly when
the search yields one match; zero matches fail with NotFound, several
matches fail with the Unsupported kind the source uses for ambiguity, a
failed request fails with the Other kind used for transport errors, and any
resolution failure stops the run before any listing or erase call. -/
theorem C3_resolution :
    (∀ (res : Except String (List Project)) (pid : Nat),
        handleGetProject res = .ok pid ↔ ∃ p : Project, res = .ok [p] ∧ p.id = pid)
    ∧ handleGetProject (.ok [])
        = .error ⟨.notFound, "No project found that matches the researched term."⟩
    ∧ (∀ (p q : Project) (rest : List Project),
        handleGetProject (.ok (p :: q :: rest))
          = .error ⟨.unsupported,
              "Multiple projects found that matches the researched term."⟩)
    ∧ (∀ err : String, handleGetProject (.error err)
        = .error ⟨.other, "Search request failed."⟩)
    ∧ (∀ (res : Except String (List Project)) (err : IOError)
        (store : Nat → List Job × Option Nat)
        (tr : Nat → Except String HttpResponse) (e : Int) (fuel : Nat),
        handleGetProject res = .error err →
        mainRun res store tr e fuel = none) := by
  refine ⟨?_, rfl, fun _ _ _ => rfl, fun _ => rfl, ?_⟩
  · intro res pid
    constructor
    · intro h
      cases res with
      | error err => simp [handleGetProject] at h
      | ok ps =>
        match ps with
        | [] => simp [handleGetProject] at h
        | [p] =>
          simp [handleGetProject] at h
          exact ⟨p, rfl, h⟩
        | p :: q :: rest => simp [handleGetProject] at h
    · rintro ⟨p, rfl, rfl⟩
      rfl
  · intro res err store tr e fuel h
    simp [mainRun, h]

/-- Claim C3, witness: an empty search result stops the run with no fetched
pages and no erase calls, and a one-element search result resolves to the
id of that element. -/
theorem C3_witness :
    mainRun (Except.ok ([] : List Project)) store1 trOk 0 5 = none
    ∧ handleGetProject (Except.ok [⟨42, "gitlab-cleaner"⟩]) = .ok 42 :=
  ⟨C3_resolution.2.2.2.2 (Except.ok [])
      ⟨.notFound, "No project found that matches the researched term."⟩
      store1 trOk 0 5 rfl,
   (C3_resolution.1 (Except.ok [⟨42, "gitlab-cleaner"⟩]) 42).mpr
      ⟨⟨42, "gitlab-cleaner"⟩, rfl, rfl⟩⟩

/-- Claim C4: pagination starts at page 1, stops with the page whose decoded
cursor is absent, continues with exactly the page the cursor names when it
is present, accumulates the jobs of the fetched pages in order with no
reordering within a page, and on the three-page scenario store fetches
exactly the pages 1, 2, 3 and accumulates 107 jobs. -/
theorem C4_pagination :
    (∀ (store : Nat → List Job × Option Nat)
        (tr : Nat → Except String HttpResponse) (e : Int) (fuel : Nat),
        (clean_jobs store tr e fuel).full_jobs = (fetchLoop store fuel (some 1)).1)
    ∧ (∀ (store : Nat → List Job × Option Nat) (fuel page : Nat)
        (jobs : List Job), store page = (jobs, none) →
        fetchLoop store (fuel + 1) (some page) = (jobs, [page]))
    ∧ (∀ (store : Nat → List Job × Option Nat) (fuel page : Nat)
        (jobs : List Job) (p2 : Nat), store page = (jobs, some p2) →
        fetchLoop store (fuel + 1) (some page)
          = (jobs ++ (fetchLoop store fuel (some p2)).1,
              page :: (fetchLoop store fuel (some p2)).2))
    ∧ (∀ (store : Nat → List Job × Option Nat) (fuel : Nat) (start : Option Nat),
        (fetchLoop store fuel start).1
          = (((fetchLoop store fuel start).2).map (fun p => (store p).1)).flatten)
    ∧ (fetchLoop store3 10 (some 1)).2 = [1, 2, 3]
    ∧ ((fetchLoop store3 10 (some 1)).1).length = 107 := by
  refine ⟨fun _ _ _ _ => rfl, ?_, ?_, fetchLoop_fst_eq_join, ?_, ?_⟩
  · intro store fuel page jobs h
    simp [fetchLoop, h]
  · intro store fuel page jobs p2 h
    simp [fetchLoop, h]
  · rfl
  · rfl

/-- Claim C4, witness: on the one-page store the loop stops after page 1, and
on the scenario store page 1 carries the cursor 2 so the loop continues with
page 2. -/
theorem C4_witness :
    fetchLoop store1 7 (some 1) = ([⟨7, 5, none⟩], [1])
    ∧ fetchLoop store3 10 (some 1)
      = ((List.range 50).map mkJob ++ (fetchLoop store3 9 (some 2)).1,
          1 :: (fetchLoop store3 9 (some 2)).2) :=
  ⟨C4_pagination.2.1 store1 6 1 [⟨7, 5, none⟩] rfl,
   C4_pagination.2.2.1 store3 9 1 ((List.range 50).map mkJob) 2 rfl⟩

/-- Claim C5: the batch result contains exactly one outcome entry per job
dispatched in the erase batch, the entry at each position is determined by
that job and its own erase exchange alone, and two runs whose erase
transports agree on one job id produce the same outcome entry for that job,
so the failure of any attempt cannot prevent or alter any sibling
attempt. -/
theorem C5_isolation :
    ∀ (store : Nat → List Job × Option Nat)
      (tr tr2 : Nat → Except String HttpResponse) (e : Int) (fuel : Nat),
      ((clean_jobs store tr e fuel).results.length
          = (clean_jobs store tr e fuel).full_jobs.length)
      ∧ (∀ (i : Nat) (j : Job),
          (clean_jobs store tr e fuel).full_jobs.get? i = some j →
          (clean_jobs store tr e fuel).results.get? i
            = some (eraseJobAttempt tr j).1)
      ∧ (∀ (i : Nat) (j : Job),
          (clean_jobs store tr e fuel).full_jobs.get? i = some j →
          tr j.id = tr2 j.id →
          (clean_jobs store tr e fuel).results.get? i
            = (clean_jobs store tr2 e fuel).results.get? i) := by
  intro store tr tr2 e fuel
  have hget : ∀ (t : Nat → Except String HttpResponse) (i : Nat) (j : Job),
      (clean_jobs store t e fuel).full_jobs.get? i = some j →
      (clean_jobs store t e fuel).results.get? i = some (eraseJobAttempt t j).1 := by
    intro t i j h
    simp only [clean_jobs] at h ⊢
    simp only [List.get?_eq_getElem?] at h ⊢
    simp [List.getElem?_map, h]
  refine ⟨by simp [clean_jobs], hget tr, ?_⟩
  intro i j h htr
  have h2 : (clean_jobs store tr2 e fuel).full_jobs.get? i = some j := h
  rw [hget tr i j h, hget tr2 i j h2]
  have : eraseJobAttempt tr j = eraseJobAttempt tr2 j := by
    simp [eraseJobAttempt, htr]
  rw [this]

/-- Claim C5, witness: in the one-job run with an answering transport the
batch result holds exactly the one entry of job 7, a success. -/
theorem C5_witness :
    (clean_jobs store1 trOk 0 5).results.get? 0
      = some (eraseJobAttempt trOk ⟨7, 5, none⟩).1 :=
  (C5_isolation store1 trOk trOk 0 5).2.1 0 ⟨7, 5, none⟩ rfl

/-- Whether a pipeline event is a page fetch. -/
def isFetchEv : PipelineEvent → Bool
  | .fetch _ => true
  | .erase _ => false

/-- Whether a pipeline event is an erase request. -/
def isEraseEv : PipelineEvent → Bool
  | .fetch _ => false
  | .erase _ => true

/-- Fetch events all pass the fetch filter. -/
theorem filter_fetch_of_fetches (ps : List Nat) :
    (ps.map PipelineEvent.fetch).filter isFetchEv = ps.map PipelineEvent.fetch := by
  induction ps with
  | nil => rfl
  | cons p ps ih => simp [isFetchEv, ih]

/-- Erase events never pass the fetch filter. -/
theorem filter_fetch_of_erases (js : List Job) :
    (js.map (fun j => PipelineEvent.erase j.id)).filter isFetchEv = [] := by
  induction js with
  | nil => rfl
  | cons j js ih => simp [isFetchEv, ih]

/-- Fetch events never pass the erase filter. -/
theorem filter_erase_of_fetches (ps : List Nat) :
    (ps.map PipelineEvent.fetch).filter isEraseEv = [] := by
  induction ps with
  | nil => rfl
  | cons p ps ih => simp [isEraseEv, ih]

/-- Erase events all pass the erase filter. -/
theorem filter_erase_of_erases (js : List Job) :
    (js.map (fun j => PipelineEvent.erase j.id)).filter isEraseEv
      = js.map (fun j => PipelineEvent.erase j.id) := by
  induction js with
  | nil => rfl
  | cons j js ih => simp [isEraseEv, ih]

/-- Fetch events contribute nothing to the count of an erase event. -/
theorem count_erase_in_fetches (x : Nat) (ps : List Nat) :
    (ps.map PipelineEvent.fetch).count (PipelineEvent.erase x) = 0 := by
  induction ps with
  | nil => rfl
  | cons p ps ih => simp [List.count_cons, ih]

/-- Counting an erase event among the erase events of a job list counts the
job ids. -/
theorem count_erase_in_erases (x : Nat) (js : List Job) :
    (js.map (fun j => PipelineEvent.erase j.id)).count (PipelineEvent.erase x)
      = (js.map Job.id).count x := by
  induction js with
  | nil => rfl
  | cons j js ih => simp [List.count_cons, ih]

/-- Claim C6: the trace of a run is its page fetches followed by its erase
requests, so no erase request is issued while pagination is in progress; the
erased set is exactly the accumulated jobs, which are the union of the pages
fetched before any deletion begins; and when the fetched job ids carry no
duplicate, every job is erased at most once in the run. -/
theorem C6_phase_separation :
    ∀ (store : Nat → List Job × Option Nat)
      (tr : Nat → Except String HttpResponse) (e : Int) (fuel : Nat),
      ((clean_jobs store tr e fuel).trace
          = ((clean_jobs store tr e fuel).trace.filter isFetchEv)
            ++ ((clean_jobs store tr e fuel).trace.filter isEraseEv))
      ∧ ((clean_jobs store tr e fuel).trace.filter isEraseEv
          = (clean_jobs store tr e fuel).full_jobs.map
              (fun j => PipelineEvent.erase j.id))
      ∧ ((clean_jobs store tr e fuel).full_jobs
          = (((fetchLoop store fuel (some 1)).2).map (fun p => (store p).1)).flatten)
      ∧ (((clean_jobs store tr e fuel).full_jobs.map Job.id).Nodup →
          ∀ x : Nat,
            (clean_jobs store tr e fuel).trace.count (PipelineEvent.erase x) ≤ 1) := by
  intro store tr e fuel
  refine ⟨?_, ?_, fetchLoop_fst_eq_join store fuel (some 1), ?_⟩
  · simp only [clean_jobs, List.filter_append, filter_fetch_of_fetches,
      filter_fetch_of_erases, filter_erase_of_fetches, filter_erase_of_erases,
      List.append_nil, List.nil_append]
  · simp only [clean_jobs, List.filter_append, filter_erase_of_fetches,
      filter_erase_of_erases, List.nil_append]
  · intro hnodup x
    have hcount := (List.nodup_iff_count_le_one).mp hnodup x
    simp only [clean_jobs, List.count_append, count_erase_in_fetches,
      count_erase_in_erases, Nat.zero_add]
    simpa using hcount

/-- Claim C6, witness: the one-job run has distinct fetched job ids and
erases job 7 at most once. -/
theorem C6_witness :
    (clean_jobs store1 trOk 0 5).trace.count (PipelineEvent.erase 7) ≤ 1 :=
  (C6_phase_separation store1 trOk 0 5).2.2.2 (by decide) 7

/-- Claim C7: handling a DisplayMessage always leaves the reporter with no
active batch, clears an in-progress batch before anything else is emitted,
and ends by emitting the message as a standalone line. -/
theorem C7_display_clears_batch :
    ∀ (st : Displ) (msg : String),
      (handleDisplayMessage st msg).1.progress_bar = none
      ∧ (handleDisplayMessage st msg).2
          = (match st.progress_bar with
             | some _ => [OutEv.clearBar, OutEv.line msg]
             | none => [OutEv.line msg])
      ∧ ((handleDisplayMessage st msg).2).getLast? = some (OutEv.line msg) := by
  intro st msg
  cases h : st.progress_bar <;> simp [handleDisplayMessage, h]

/-- Claim C8: handling an IncreaseProgress is a no-op when no batch is
active, and otherwise replaces the displayed label and increments the
counter by exactly one, leaving the length unchanged. -/
theorem C8_advance :
    ∀ (st : Displ) (msg : String),
      (st.progress_bar = none → handleIncreaseProgress st msg = st)
      ∧ (∀ pb : DisplProgressBar, st.progress_bar = some pb →
          handleIncreaseProgress st msg = ⟨some ⟨pb.length, pb.pos + 1, msg⟩⟩) := by
  intro st msg
  constructor
  · intro h
    simp [handleIncreaseProgress, h]
  · intro pb h
    simp [handleIncreaseProgress, h]

/-- Claim C8, witness: with no batch the state is unchanged, and with a batch
at 2 of 5 the label is replaced and the position moves to 3 of 5. -/
theorem C8_witness :
    handleIncreaseProgress ⟨none⟩ "label" = ⟨none⟩
    ∧ handleIncreaseProgress ⟨some ⟨5, 2, "before"⟩⟩ "after"
      = ⟨some ⟨5, 3, "after"⟩⟩ :=
  ⟨(C8_advance ⟨none⟩ "label").1 rfl,
   (C8_advance ⟨some ⟨5, 2, "before"⟩⟩ "after").2 ⟨5, 2, "before"⟩ rfl⟩

end GitlabCleaner
